import Mathlib

/-!
Shallow embedding of the ScriptSite link-checking scripts.

Source files modelled here:
* `src/check_univ_links.py` — the bounded concurrent link checker
  (`extract_univ_links`, `visit_and_check`, `is_problem`, `reason_text`,
  `run`, the semaphore-bounded worker pool).
* `src/check_site.py` — the simple sequential checker (`check_url`).

HTTP fetching, Playwright pages and the `requests` library are external
effects; they are modelled by explicit outcome values (`FetchOutcome`,
`ReqOutcome`) passed to the pure classification logic, which is translated
line by line from the Python source.
-/

namespace ScriptSite

/-- `MAX_CONCURRENCY = 8` from check_univ_links.py line 40. -/
def MAX_CONCURRENCY : Nat := 8

/-- `UnivLink` dataclass (check_univ_links.py lines 44-47): a (name, href) pair. -/
structure UnivLink where
  name : String
  href : String
deriving Repr, DecidableEq

/-- `CheckResult` dataclass (check_univ_links.py lines 49-56). `status` is
`none` when no response was received; `note` is the reason string. -/
structure CheckResult where
  name : String
  href : String
  status : Option Nat
  title : String
  ok : Bool
  note : String
deriving Repr, DecidableEq

/-- Python `str.strip()`: remove leading and trailing whitespace
(modelled for the ASCII whitespace characters). -/
def pyStrip (s : String) : String :=
  ⟨((s.data.dropWhile Char.isWhitespace).reverse.dropWhile Char.isWhitespace).reverse⟩

/-- `is_problem` (check_univ_links.py lines 117-125): a result is a problem
when there is no status, the status is at least 400, or the title is
empty after stripping whitespace. -/
def is_problem (status : Option Nat) (title : String) : Bool :=
  match status with
  | none => true
  | some s =>
    if 400 ≤ s then true
    else if pyStrip title = "" then true
    else false

/-- `reason_text` (check_univ_links.py lines 127-134). -/
def reason_text (status : Option Nat) (title : String) : String :=
  match status with
  | none => "no response"
  | some s =>
    if 400 ≤ s then "http " ++ toString s
    else if pyStrip title = "" then "empty title"
    else "unknown"

/-- Outcome of the external fetch performed inside `visit_and_check`
(check_univ_links.py lines 96-112):
* `timeout` — `page.goto` raised `PWTimeoutError` (line 109);
* `exc kind msg` — `page.goto` raised any other exception (line 111),
  with `kind` the exception class name and `msg` its message;
* `resp st title` — `page.goto` returned, `st` is `resp.status` when a
  response object was returned and `none` when `goto` returned `None`
  (lines 98-100), and `title` is the page title with any `page.title`
  failure already mapped to the empty string (lines 102-105). -/
inductive FetchOutcome where
  | timeout
  | exc (kind : String) (msg : String)
  | resp (status : Option Nat) (title : String)
deriving Repr, DecidableEq

/-- `visit_and_check` (check_univ_links.py lines 91-115) as a function of the
fetch outcome. On an exception the local variables keep their initial
values `status = None`, `title = ""`, `ok = False` and only `note` is set;
on a returned response `ok` is the negation of `is_problem` and `note` is
set to `reason_text` exactly when the result is a problem. -/
def visit_and_check (item : UnivLink) (o : FetchOutcome) : CheckResult :=
  match o with
  | .timeout => ⟨item.name, item.href, none, "", false, "timeout"⟩
  | .exc kind msg =>
      ⟨item.name, item.href, none, "", false,
        "exception: " ++ kind ++ ": " ++ msg⟩
  | .resp status title =>
      let ok := !(is_problem status title)
      ⟨item.name, item.href, status, title, ok,
        if ok then "" else reason_text status title⟩

/-- The batch of `run` (check_univ_links.py lines 150-165): one worker per
entry, each producing exactly one `CheckResult` from its fetch outcome.
`f i` is the fetch outcome of the worker with index `i` (the `idx`
argument of `worker`). -/
def run (entries : List UnivLink) (f : Nat → FetchOutcome) : List CheckResult :=
  entries.enum.map (fun p => visit_and_check p.2 (f p.1))

/-- `START_URL` (check_univ_links.py line 35). -/
def START_URL : String := "https://apply.jinhakapply.com/"

/-- Python `s.rstrip("/")`: remove trailing slash characters. -/
def pyRstripSlash (s : String) : String :=
  ⟨(s.data.reverse.dropWhile (fun c => c = '/')).reverse⟩

/-- Python `s.startswith(p)`. -/
def pyStartsWith (s p : String) : Bool :=
  p.data.isPrefixOf s.data

/-- Length of a shortest match of the regex piece consisting of a
non-greedy run of non-slash characters followed by the literal ".kr"
(check_univ_links.py line 75), applied at the start of the given
characters. Non-greedy matching tries the literal ".kr" at each
position before consuming one more (non-slash) character. -/
def krLen : List Char → Option Nat
  | '.' :: 'k' :: 'r' :: _ => some 3
  | c :: cs => if c = '/' then none else (krLen cs).map (fun k => k + 1)
  | [] => none

/-- Length of the scheme part matched by the regex piece for "http://" or
"https://" anchored at the start of the string (check_univ_links.py
line 75). -/
def schemeLen (h : String) : Option Nat :=
  if pyStartsWith h "https://" then some 8
  else if pyStartsWith h "http://" then some 7
  else none

/-- The ".kr" truncation of check_univ_links.py lines 74-77: when the
anchored regex of line 75 matches, keep only the matched group (scheme
plus shortest non-slash run ending in ".kr"); otherwise keep the href
unchanged. -/
def krTruncate (href : String) : String :=
  match schemeLen href with
  | none => href
  | some n =>
    match krLen (href.data.drop n) with
    | none => href
    | some k => ⟨href.data.take (n + k)⟩

/-- Python `re.sub` collapsing every whitespace run into a single space
(check_univ_links.py line 86). -/
def collapseWs : List Char → List Char
  | [] => []
  | [c] => if c.isWhitespace then [' '] else [c]
  | c :: d :: rest =>
    if c.isWhitespace && d.isWhitespace then collapseWs (d :: rest)
    else (if c.isWhitespace then ' ' else c) :: collapseWs (d :: rest)

/-- An anchor element as observed by `extract_univ_links`
(check_univ_links.py lines 63-86): its href attribute (`none` when
`get_attribute` returns `None`), the inner text of the nested name node
when the name selector matches, and the inner text of the anchor. -/
structure Anchor where
  href : Option String
  nameNode : Option String
  innerText : String
deriving Repr, DecidableEq

/-- The href normalization of check_univ_links.py lines 66-77: default the
missing attribute to the empty string, strip it, skip it when empty,
prepend the start URL without its trailing slash when the href is
relative, then apply the ".kr" truncation. -/
def processHref (rawHref : Option String) : Option String :=
  let h := pyStrip (rawHref.getD "")
  if h = "" then none
  else
    let h2 := if pyStartsWith h "/" then pyRstripSlash START_URL ++ h else h
    some (krTruncate h2)

/-- One iteration of the anchor loop of `extract_univ_links`
(check_univ_links.py lines 65-88): the normalized href together with the
extracted name (the stripped name-node text when present, otherwise the
anchor text stripped and whitespace-collapsed), where an empty name falls
back to the href. -/
def processAnchor (a : Anchor) : Option UnivLink :=
  match processHref a.href with
  | none => none
  | some href =>
    let name :=
      match a.nameNode with
      | some t => pyStrip t
      | none => ⟨collapseWs (pyStrip a.innerText).data⟩
    some ⟨if name = "" then href else name, href⟩

/-- The accumulation over the `found` dictionary of `extract_univ_links`
(check_univ_links.py lines 64-88): the dictionary is modelled as a list in
insertion order, and an anchor whose href is already present is skipped. -/
def collectLinks : List Anchor → List UnivLink → List UnivLink
  | [], acc => acc
  | a :: rest, acc =>
    match processAnchor a with
    | none => collectLinks rest acc
    | some l =>
      if acc.any (fun u => u.href = l.href) then collectLinks rest acc
      else collectLinks rest (acc ++ [l])

/-- `extract_univ_links` (check_univ_links.py lines 61-89): the values of
the `found` dictionary in insertion order. -/
def extract_univ_links (anchors : List Anchor) : List UnivLink :=
  collectLinks anchors []

/-- The link produced by the first anchor in the list whose normalized href
equals the given one. -/
def findFirstByHref : List Anchor → String → Option UnivLink
  | [], _ => none
  | a :: rest, h =>
    match processAnchor a with
    | none => findFirstByHref rest h
    | some l => if l.href = h then some l else findFirstByHref rest h

/-- State of the semaphore-bounded worker pool of `run`
(check_univ_links.py lines 150-165): how many workers are still waiting to
acquire the semaphore, how many hold it and are fetching, how many have
finished, and the semaphore counter. -/
structure PoolState where
  pending : Nat
  inflight : Nat
  done : Nat
  sem : Nat
deriving Repr, DecidableEq

/-- Steps of the worker pool: a waiting worker may acquire the semaphore
only when its counter is positive (entering `async with semaphore`,
line 156), and a fetching worker may finish, releasing the semaphore
(leaving the `async with` block). -/
inductive PoolStep : PoolState → PoolState → Prop
  | acquire (s : PoolState) :
      0 < s.pending → 0 < s.sem →
      PoolStep s ⟨s.pending - 1, s.inflight + 1, s.done, s.sem - 1⟩
  | release (s : PoolState) :
      0 < s.inflight →
      PoolStep s ⟨s.pending, s.inflight - 1, s.done + 1, s.sem + 1⟩

/-- Reachability under pool steps. -/
inductive Reachable (init : PoolState) : PoolState → Prop
  | refl : Reachable init init
  | step {s t : PoolState} : Reachable init s → PoolStep s t → Reachable init t

/-- The initial pool state for `n` entries: all workers pending, the
semaphore at `MAX_CONCURRENCY` (check_univ_links.py line 150). -/
def initState (n : Nat) : PoolState :=
  ⟨n, 0, 0, MAX_CONCURRENCY⟩

/-- Outcome of the `requests.get` call in check_site.py lines 15-22: either
a response with a final status code, or a raised `RequestException` with
the given class name. -/
inductive ReqOutcome where
  | resp (statusCode : Nat)
  | requestException (clsName : String)
deriving Repr, DecidableEq

/-- `check_url` (check_site.py lines 14-22) as a function of the request
outcome. -/
def check_url (o : ReqOutcome) : String :=
  match o with
  | .resp code => if code = 200 then "OK" else "Error " ++ toString code
  | .requestException cls => "Error: " ++ cls

end ScriptSite

namespace ScriptSite

/-- C1: a response with status in [200,399] and a title that is non-empty
after trimming yields `ok = true` and an empty reason string. -/
theorem C1_success_ok_empty_reason (item : UnivLink) (s : Nat) (title : String)
    (h200 : 200 ≤ s) (h399 : s ≤ 399) (ht : pyStrip title ≠ "") :
    (visit_and_check item (.resp (some s) title)).ok = true ∧
      (visit_and_check item (.resp (some s) title)).note = "" := by
  have hlt : ¬ 400 ≤ s := by omega
  simp [visit_and_check, is_problem, hlt, ht]

/-- Witness for C1 at status 200 and title "A". -/
theorem C1_success_ok_empty_reason_witness :
    (visit_and_check ⟨"Uni", "https://u.kr"⟩ (.resp (some 200) "A")).ok = true ∧
      (visit_and_check ⟨"Uni", "https://u.kr"⟩ (.resp (some 200) "A")).note = "" :=
  C1_success_ok_empty_reason ⟨"Uni", "https://u.kr"⟩ 200 "A"
    (by decide) (by decide) (by decide)

/-- C3: a response with status at least 400 yields `ok = false` and reason
"http " followed by the exact status code. -/
theorem C3_http_error_reason (item : UnivLink) (s : Nat) (title : String)
    (h : 400 ≤ s) :
    (visit_and_check item (.resp (some s) title)).ok = false ∧
      (visit_and_check item (.resp (some s) title)).note = "http " ++ toString s := by
  simp [visit_and_check, is_problem, reason_text, h]

/-- Witness for C3 at status 404. -/
theorem C3_http_error_reason_witness :
    (visit_and_check ⟨"Uni", "https://u.kr"⟩ (.resp (some 404) "t")).ok = false ∧
      (visit_and_check ⟨"Uni", "https://u.kr"⟩ (.resp (some 404) "t")).note
        = "http " ++ toString 404 :=
  C3_http_error_reason ⟨"Uni", "https://u.kr"⟩ 404 "t" (by decide)

/-- C4: a response with status below 400 but an empty or whitespace-only
title yields `ok = false` and reason "empty title". -/
theorem C4_empty_title_reason (item : UnivLink) (s : Nat) (title : String)
    (hs : s < 400) (ht : pyStrip title = "") :
    (visit_and_check item (.resp (some s) title)).ok = false ∧
      (visit_and_check item (.resp (some s) title)).note = "empty title" := by
  have hlt : ¬ 400 ≤ s := by omega
  simp [visit_and_check, is_problem, reason_text, hlt, ht]

/-- Witness for C4 at status 200 and a whitespace-only title. -/
theorem C4_empty_title_reason_witness :
    (visit_and_check ⟨"Uni", "https://u.kr"⟩ (.resp (some 200) "  ")).ok = false ∧
      (visit_and_check ⟨"Uni", "https://u.kr"⟩ (.resp (some 200) "  ")).note
        = "empty title" :=
  C4_empty_title_reason ⟨"Uni", "https://u.kr"⟩ 200 "  " (by decide) (by decide)

/-- Two strings whose first characters differ are different strings. -/
theorem ne_of_head_ne (s t : String) (h : s.data.head? ≠ t.data.head?) : s ≠ t :=
  fun he => h (congrArg (fun u => u.data.head?) he)

/-- An exception note starts with the character e. -/
theorem exc_note_head (kind msg : String) :
    ("exception: " ++ kind ++ ": " ++ msg).data.head? = some 'e' := by
  have h1 : ("exception: ").data
      = ['e', 'x', 'c', 'e', 'p', 't', 'i', 'o', 'n', ':', ' '] := rfl
  rw [String.data_append, String.data_append, String.data_append, h1]
  rfl

/-- An http status note starts with the character h. -/
theorem http_note_head (x : String) :
    ("http " ++ x).data.head? = some 'h' := by
  have h1 : ("http ").data = ['h', 't', 't', 'p', ' '] := rfl
  rw [String.data_append, h1]
  rfl

/-- Whenever `is_problem` holds, `reason_text` is non-empty and is never
the fall-through value "unknown". -/
theorem reason_text_ne (status : Option Nat) (title : String)
    (h : is_problem status title = true) :
    reason_text status title ≠ "" ∧ reason_text status title ≠ "unknown" := by
  match status with
  | none =>
    exact ⟨(by decide : ("no response" : String) ≠ ""),
      (by decide : ("no response" : String) ≠ "unknown")⟩
  | some s =>
    by_cases h4 : 400 ≤ s
    · rw [show reason_text (some s) title = "http " ++ toString s by
        simp [reason_text, h4]]
      constructor
      · exact ne_of_head_ne _ _ (by rw [http_note_head]; decide)
      · exact ne_of_head_ne _ _ (by rw [http_note_head]; decide)
    · by_cases he : pyStrip title = ""
      · rw [show reason_text (some s) title = "empty title" by
          simp [reason_text, h4, he]]
        exact ⟨by decide, by decide⟩
      · exact absurd h (by simp [is_problem, h4, he])

/-- C2 as stated is false on the code: a per-fetch timeout (the
`PWTimeoutError` branch of `visit_and_check`) produces the reason
"timeout", not "no response". -/
theorem C2_counterexample :
    (visit_and_check ⟨"Uni", "https://u.kr"⟩ .timeout).status = none ∧
      (visit_and_check ⟨"Uni", "https://u.kr"⟩ .timeout).ok = false ∧
      (visit_and_check ⟨"Uni", "https://u.kr"⟩ .timeout).note ≠ "no response" := by
  decide

/-- C2 amended: when `page.goto` returns no response object without raising,
the result has `status = none`, `ok = false` and reason "no response"; a
per-fetch timeout gives `status = none`, `ok = false` and reason "timeout";
any other fetch exception gives `status = none`, `ok = false` and reason
"exception: " followed by the kind, ": " and the message. -/
theorem C2_amended_no_response_paths (item : UnivLink) (title kind msg : String) :
    ((visit_and_check item (.resp none title)).status = none ∧
      (visit_and_check item (.resp none title)).ok = false ∧
      (visit_and_check item (.resp none title)).note = "no response") ∧
    ((visit_and_check item .timeout).status = none ∧
      (visit_and_check item .timeout).ok = false ∧
      (visit_and_check item .timeout).note = "timeout") ∧
    ((visit_and_check item (.exc kind msg)).status = none ∧
      (visit_and_check item (.exc kind msg)).ok = false ∧
      (visit_and_check item (.exc kind msg)).note
        = "exception: " ++ kind ++ ": " ++ msg) :=
  ⟨⟨rfl, rfl, rfl⟩, ⟨rfl, rfl, rfl⟩, ⟨rfl, rfl, rfl⟩⟩

/-- C5 as stated is false on the code: the timeout exception
(`PWTimeoutError`) is an exception raised while fetching, yet its result
carries the reason "timeout", which does not begin with "exception: " and
so is not of the claimed form "exception: kind: message". -/
theorem C5_counterexample :
    (visit_and_check ⟨"Uni", "https://u.kr"⟩ .timeout).ok = false ∧
      (visit_and_check ⟨"Uni", "https://u.kr"⟩ .timeout).note = "timeout" ∧
      (visit_and_check ⟨"Uni", "https://u.kr"⟩ .timeout).note.data.take 11
        ≠ ("exception: ").data := by
  decide

/-- C5 amended: every non-timeout exception raised while fetching a single
entry is converted into a CheckResult with `ok = false` and reason
"exception: " followed by the kind, ": " and the message, while a
`PWTimeoutError` is converted into a CheckResult with `ok = false` and
reason "timeout"; in both cases the batch still yields exactly one result
per entry. -/
theorem C5_amended_exception_conversion (item : UnivLink) (kind msg : String)
    (entries : List UnivLink) (f : Nat → FetchOutcome) :
    ((visit_and_check item (.exc kind msg)).ok = false ∧
      (visit_and_check item (.exc kind msg)).note
        = "exception: " ++ kind ++ ": " ++ msg) ∧
    ((visit_and_check item .timeout).ok = false ∧
      (visit_and_check item .timeout).note = "timeout") ∧
    (run entries f).length = entries.length := by
  refine ⟨⟨rfl, rfl⟩, ⟨rfl, rfl⟩, ?_⟩
  simp [run]

/-- C6: the checker produces exactly one CheckResult per input entry, and
the empty input yields the empty result list. -/
theorem C6_one_result_per_entry (entries : List UnivLink) (f : Nat → FetchOutcome) :
    (run entries f).length = entries.length ∧ run [] f = [] := by
  constructor
  · simp [run]
  · rfl

/-- C9: for every result of `visit_and_check`, `ok = true` holds exactly
when the note is empty, and the "unknown" fall-through of `reason_text` is
never returned. -/
theorem C9_ok_iff_empty_note (item : UnivLink) (o : FetchOutcome) :
    ((visit_and_check item o).ok = true ↔ (visit_and_check item o).note = "") ∧
      (visit_and_check item o).note ≠ "unknown" := by
  match o with
  | .timeout =>
    exact ⟨(by decide : (false = true) ↔ (("timeout" : String) = "")),
      (by decide : ("timeout" : String) ≠ "unknown")⟩
  | .exc kind msg =>
    have hne : ("exception: " ++ kind ++ ": " ++ msg) ≠ "" :=
      ne_of_head_ne ("exception: " ++ kind ++ ": " ++ msg) ""
        (by rw [exc_note_head]; decide)
    have hnu : ("exception: " ++ kind ++ ": " ++ msg) ≠ "unknown" :=
      ne_of_head_ne ("exception: " ++ kind ++ ": " ++ msg) "unknown"
        (by rw [exc_note_head]; decide)
    exact ⟨⟨fun h => absurd h (by decide : ¬ (false = true)),
      fun h => absurd h hne⟩, hnu⟩
  | .resp status title =>
    simp only [visit_and_check]
    by_cases hp : is_problem status title = true
    · have hr := reason_text_ne status title hp
      simp [hp, hr.1, hr.2]
    · simp at hp
      simp [hp]

/-- Witness for C9 at a concrete problem outcome. -/
theorem C9_ok_iff_empty_note_witness :
    (((visit_and_check ⟨"Uni", "https://u.kr"⟩ (.resp (some 500) "t")).ok = true ↔
      (visit_and_check ⟨"Uni", "https://u.kr"⟩ (.resp (some 500) "t")).note = "") ∧
      (visit_and_check ⟨"Uni", "https://u.kr"⟩ (.resp (some 500) "t")).note
        ≠ "unknown") :=
  C9_ok_iff_empty_note ⟨"Uni", "https://u.kr"⟩ (.resp (some 500) "t")

/-- Appending a fresh href keeps the mapped href list without duplicates. -/
theorem nodup_append_fresh (acc : List UnivLink) (l : UnivLink)
    (h : (acc.map UnivLink.href).Nodup)
    (hnotin : ∀ u ∈ acc, ¬ u.href = l.href) :
    ((acc ++ [l]).map UnivLink.href).Nodup := by
  rw [List.map_append]
  refine List.Nodup.append h (by simp) ?_
  intro x hx hxl
  rcases List.mem_map.mp hx with ⟨u, hu, hux⟩
  have hxeq : x = l.href := by simpa using hxl
  exact hnotin u hu (hux.trans hxeq)

/-- The accumulated href list stays duplicate-free through `collectLinks`. -/
theorem collectLinks_nodup (anchors : List Anchor) :
    ∀ acc : List UnivLink, (acc.map UnivLink.href).Nodup →
      ((collectLinks anchors acc).map UnivLink.href).Nodup := by
  induction anchors with
  | nil => intro acc h; simpa [collectLinks] using h
  | cons a rest ih =>
    intro acc h
    cases hpa : processAnchor a with
    | none => simpa [collectLinks, hpa] using ih acc h
    | some l =>
      by_cases hmem : acc.any (fun u => u.href = l.href) = true
      · simpa [collectLinks, hpa, hmem] using ih acc h
      · have hnotin : ∀ u ∈ acc, ¬ u.href = l.href := by
          rw [Bool.not_eq_true] at hmem
          simpa [List.any_eq_false] using hmem
        have h2 := nodup_append_fresh acc l h hnotin
        simpa [collectLinks, hpa, hmem] using ih (acc ++ [l]) h2

/-- Every link produced by `collectLinks` is either already in the
accumulator or is the link of the first anchor with its href, and in the
latter case its href is fresh for the accumulator. -/
theorem mem_collectLinks (anchors : List Anchor) :
    ∀ (acc : List UnivLink) (u : UnivLink), u ∈ collectLinks anchors acc →
      u ∈ acc ∨
        (findFirstByHref anchors u.href = some u ∧ ∀ v ∈ acc, v.href ≠ u.href) := by
  induction anchors with
  | nil => intro acc u hu; exact Or.inl (by simpa [collectLinks] using hu)
  | cons a rest ih =>
    intro acc u hu
    cases hpa : processAnchor a with
    | none =>
      simp only [collectLinks, hpa] at hu
      rcases ih acc u hu with h | ⟨hf, hv⟩
      · exact Or.inl h
      · exact Or.inr ⟨by simp [findFirstByHref, hpa, hf], hv⟩
    | some l =>
      by_cases hmem : acc.any (fun v => v.href = l.href) = true
      · simp only [collectLinks, hpa, hmem, if_true] at hu
        rcases ih acc u hu with h | ⟨hf, hv⟩
        · exact Or.inl h
        · rcases List.any_eq_true.mp hmem with ⟨v, hvacc, hvl⟩
          have hvl2 : v.href = l.href := of_decide_eq_true hvl
          have hlu : ¬ l.href = u.href := fun he => hv v hvacc (hvl2.trans he)
          exact Or.inr ⟨by simp [findFirstByHref, hpa, hlu, hf], hv⟩
      · simp only [collectLinks, hpa, hmem, if_false, Bool.false_eq_true] at hu
        have hnotin : ∀ v ∈ acc, ¬ v.href = l.href := by
          rw [Bool.not_eq_true] at hmem
          simpa [List.any_eq_false] using hmem
        rcases ih (acc ++ [l]) u hu with h | ⟨hf, hv⟩
        · rcases List.mem_append.mp h with h | h
          · exact Or.inl h
          · have hul : u = l := by simpa using h
            subst hul
            refine Or.inr ⟨by simp [findFirstByHref, hpa], ?_⟩
            intro v hvacc
            exact hnotin v hvacc
        · have hlu : ¬ l.href = u.href := fun he => hv l (by simp) he
          refine Or.inr ⟨by simp [findFirstByHref, hpa, hlu, hf],
            fun v hvacc => hv v (List.mem_append_left _ hvacc)⟩

/-- C8: the extractor output contains every normalized href at most once,
and the link kept for each href is the one produced by the first-seen
anchor with that href, so the first-seen name wins on duplicates. -/
theorem C8_unique_href_first_name (anchors : List Anchor) :
    ((extract_univ_links anchors).map UnivLink.href).Nodup ∧
      ∀ u ∈ extract_univ_links anchors, findFirstByHref anchors u.href = some u := by
  constructor
  · exact collectLinks_nodup anchors [] (by simp)
  · intro u hu
    rcases mem_collectLinks anchors [] u hu with h | ⟨hf, _⟩
    · simp at h
    · exact hf

/-- Witness for C8: two anchors normalizing to the same href keep the
first name. -/
theorem C8_unique_href_first_name_witness :
    ((extract_univ_links
        [⟨some "https://foo.kr/x", some "First", ""⟩,
         ⟨some "https://foo.kr/y", some "Second", ""⟩]).map UnivLink.href).Nodup ∧
      findFirstByHref
        [⟨some "https://foo.kr/x", some "First", ""⟩,
         ⟨some "https://foo.kr/y", some "Second", ""⟩] "https://foo.kr"
        = some ⟨"First", "https://foo.kr"⟩ :=
  ⟨(C8_unique_href_first_name _).1,
    (C8_unique_href_first_name
        [⟨some "https://foo.kr/x", some "First", ""⟩,
         ⟨some "https://foo.kr/y", some "Second", ""⟩]).2
      ⟨"First", "https://foo.kr"⟩ (by decide)⟩

/-- Invariant of the worker pool: fetching workers and free semaphore
permits always add up to the concurrency limit. -/
theorem pool_invariant {n : Nat} {s : PoolState}
    (h : Reachable (initState n) s) : s.inflight + s.sem = MAX_CONCURRENCY := by
  induction h with
  | refl => rfl
  | @step s t hr hstep ih =>
    cases hstep with
    | acquire hp hsem =>
      show s.inflight + 1 + (s.sem - 1) = MAX_CONCURRENCY
      omega
    | release hi =>
      show s.inflight - 1 + (s.sem + 1) = MAX_CONCURRENCY
      omega

/-- C7: in every state the worker pool can reach, at most
`MAX_CONCURRENCY` fetches are in flight. -/
theorem C7_concurrency_cap (n : Nat) (s : PoolState)
    (h : Reachable (initState n) s) : s.inflight ≤ MAX_CONCURRENCY := by
  have hinv := pool_invariant h
  omega

/-- Witness for C7 at a state reached by one acquire step from two
pending entries. -/
theorem C7_concurrency_cap_witness :
    (⟨1, 1, 0, 7⟩ : PoolState).inflight ≤ MAX_CONCURRENCY :=
  C7_concurrency_cap 2 ⟨1, 1, 0, 7⟩
    (Reachable.step Reachable.refl
      (PoolStep.acquire (initState 2) (by decide) (by decide)))

/-- An error status message starts with the character E. -/
theorem error_head (x : String) : ("Error " ++ x).data.head? = some 'E' := by
  have h1 : ("Error ").data = ['E', 'r', 'r', 'o', 'r', ' '] := rfl
  rw [String.data_append, h1]
  rfl

/-- An error exception message starts with the character E. -/
theorem error_colon_head (x : String) :
    ("Error: " ++ x).data.head? = some 'E' := by
  have h1 : ("Error: ").data = ['E', 'r', 'r', 'o', 'r', ':', ' '] := rfl
  rw [String.data_append, h1]
  rfl

/-- C10: `check_url` answers "OK" exactly for the final status 200, answers
"Error " followed by the status for any other received status, and turns
every `RequestException` into "Error: " followed by the exception class
name instead of propagating it. -/
theorem C10_check_url_spec (code : Nat) (cls : String) :
    (check_url (.resp code) = "OK" ↔ code = 200) ∧
      (code ≠ 200 → check_url (.resp code) = "Error " ++ toString code) ∧
      check_url (.requestException cls) = "Error: " ++ cls ∧
      check_url (.requestException cls) ≠ "OK" := by
  refine ⟨⟨?_, ?_⟩, ?_, rfl, ?_⟩
  · intro h
    by_cases hc : code = 200
    · exact hc
    · exfalso
      rw [show check_url (.resp code) = "Error " ++ toString code by
        simp [check_url, hc]] at h
      exact (ne_of_head_ne _ _ (by rw [error_head]; decide)) h
  · intro h
    simp [check_url, h]
  · intro h
    simp [check_url, h]
  · exact ne_of_head_ne ("Error: " ++ cls) "OK" (by rw [error_colon_head]; decide)

/-- Witness for C10 at statuses 200 and 301 and a connection error. -/
theorem C10_check_url_spec_witness :
    check_url (.resp 200) = "OK" ∧
      check_url (.resp 301) = "Error " ++ toString 301 ∧
      check_url (.requestException "ConnectionError") = "Error: ConnectionError" ∧
      check_url (.requestException "ConnectionError") ≠ "OK" :=
  ⟨(C10_check_url_spec 200 "x").1.mpr rfl,
    (C10_check_url_spec 301 "x").2.1 (by decide),
    (C10_check_url_spec 0 "ConnectionError").2.2.1,
    (C10_check_url_spec 0 "ConnectionError").2.2.2⟩

end ScriptSite
